import Mathlib

/-!
# Verification of the arxiv-rag hybrid indexing / search / task / cache core

Shallow embedding of the repository's core components:

* `HybridIndexingService.index_paper`
  (`src/data_ingestion/src/services/indexing/hybrid_indexer.py`)
* `QdrantDB` (`src/common-lib/arxiv_lib/vector_db/qdrant.py`):
  `_string_to_positive_int`, `add_batch_docs`, `search_docs`, `_hybrid_search`
* `TaskRepository.reset_task` / `TaskService`
  (`src/arxiv_backend/src/repositories/tasks.py`, `src/arxiv_backend/src/services/tasks.py`)
* `CacheClient` (`src/arxiv_api/src/services/cache.py`)

Python exceptions are modelled with `Except PyErr`; side effects (embedding
calls, vector-store upserts, issued queries, broker enqueues) are returned as
explicit event logs so that "no upsert happened" and "persisted before
enqueued" are provable statements.  External collaborators (embedding client,
qdrant server, redis, celery broker) are parameters of the model; their
observable calls are what the logs record.
-/

set_option maxRecDepth 10000

/-- Python exception kinds that appear in the modelled modules. -/
inductive PyErr where
  /-- `ValueError(msg)` -/
  | valueError (msg : String)
  /-- `RuntimeError(msg)` -/
  | runtimeError (msg : String)
  /-- `qdrant_client.http.exceptions.UnexpectedResponse` -/
  | unexpectedResponse
  /-- `arxiv_lib.exceptions.EntityNotFound` -/
  | entityNotFound (msg : String)
  /-- `arxiv_lib.exceptions.ConflictError` -/
  | conflictError (msg : String)
  /-- any other exception raised by an external collaborator -/
  | exn (msg : String)
deriving DecidableEq, Repr

/-! ## CRC32 (zlib), used by `QdrantDB._string_to_positive_int` -/

/-- One bit-step of the reflected CRC-32 with polynomial `0xEDB88320`
(the polynomial zlib's `crc32` uses). -/
def crc32Step (c : Nat) : Nat :=
  if c % 2 = 1 then Nat.xor (c / 2) 0xEDB88320 else c / 2

/-- `n` iterations of `crc32Step`. -/
def crc32Rounds : Nat → Nat → Nat
  | 0, c => c
  | n + 1, c => crc32Rounds n (crc32Step c)

/-- Fold one byte into the running CRC. -/
def crc32Byte (c b : Nat) : Nat :=
  crc32Rounds 8 (Nat.xor c (b % 256))

/-- zlib `crc32` over a byte list (initial value 0, i.e. Python's
`zlib.crc32(data)`). -/
def crc32 (bytes : List Nat) : Nat :=
  Nat.xor (bytes.foldl crc32Byte (Nat.xor 0 0xFFFFFFFF)) 0xFFFFFFFF

/-- UTF-8 encoding of one unicode code point (Python's `str.encode()` per
character). -/
def utf8Bytes (c : Nat) : List Nat :=
  if c < 0x80 then [c]
  else if c < 0x800 then [0xC0 + c / 64, 0x80 + c % 64]
  else if c < 0x10000 then [0xE0 + c / 4096, 0x80 + (c / 64) % 64, 0x80 + c % 64]
  else [0xF0 + c / 262144, 0x80 + (c / 4096) % 64, 0x80 + (c / 64) % 64, 0x80 + c % 64]

/-- Byte sequence of `value.encode()` (UTF-8). -/
def strBytes (s : String) : List Nat :=
  (s.data.map (fun ch => utf8Bytes ch.toNat)).flatten

/-- `QdrantDB._string_to_positive_int(value, max_val=2**31-1)`:
`crc32(value.encode()) % max_val`. -/
def stringToPositiveInt (value : String) (maxVal : Nat := 2 ^ 31 - 1) : Nat :=
  crc32 (strBytes value) % maxVal

example : crc32 (strBytes "a") = 0xE8B7BE43 := by decide
example : crc32 (strBytes "123456789") = 0xCBF43926 := by decide

/-! ## Response cache (`src/arxiv_api/src/services/cache.py`) -/

/-- Minimal JSON value model: only the shapes the cache module produces are
needed — bare strings and one-level objects with string values
(`{"response": "..."}`). -/
inductive Json where
  | str (s : String)
  | obj (fields : List (String × String))
deriving DecidableEq, Repr

/-- Field lookup on a JSON object (`dict.get(key)` on the parsed value). -/
def Json.lookupField (j : Json) (key : String) : Option String :=
  match j with
  | .str _ => none
  | .obj fields => (fields.find? (fun f => f.1 = key)).map (·.2)

/-- JSON string-literal escaping of one character (quote and backslash; the
control-character escapes Python's `json.dumps` also performs do not occur in
the inputs this development evaluates). -/
def jsonEscapeChar (c : Char) : String :=
  if c = '"' then "\\\"" else if c = '\\' then "\\\\" else String.singleton c

/-- `json.dumps` of a string value. -/
def jsonDumpStr (s : String) : String :=
  "\"" ++ String.join (s.data.map jsonEscapeChar) ++ "\""

/-- What the redis backend hands back for a stored value: bytes that
deserialize to a JSON value, or bytes on which `json.loads` fails. -/
inductive CacheVal where
  | blob (j : Json)
  | corrupt
deriving DecidableEq, Repr

/-- The redis client boundary (`redis.get` / `redis.set`), as read-only
functions; each call may raise. -/
structure RedisEnv where
  get : String → Except PyErr (Option CacheVal)
  set : String → Json → Except PyErr Bool

/-- The `CacheClient` state: the hash function backing
`hashlib.sha256(...).hexdigest()` (an external library, kept as a parameter)
and the configured TTL in hours. -/
structure CacheClient where
  sha256Hexdigest : String → String
  ttlHours : Nat

/-- `CacheClient._generate_cache_key(query)`:
`json.dumps({"query": query}, sort_keys=True)`, sha256 hexdigest truncated to
16 characters, prefixed with `exact_cache:`. -/
def generateCacheKey (client : CacheClient) (query : String) : String :=
  let keyString := "\x7b\"query\": " ++ jsonDumpStr query ++ "\x7d"
  let keyHash := (client.sha256Hexdigest keyString).take 16
  "exact_cache:" ++ keyHash

/-- `json.dumps({"response": response})`, as the JSON value it serializes. -/
def responseWrapper (response : String) : Json :=
  Json.obj [("response", response)]

/-- `CacheClient.find_cached_response(query)`: GET the derived key; a missing
key, a deserialization failure, or any backend exception yields `None`
(the function catches everything). -/
def findCachedResponse (client : CacheClient) (env : RedisEnv) (query : String) :
    Option Json :=
  let cacheKey := generateCacheKey client query
  match env.get cacheKey with
  | .error _ => none
  | .ok none => none
  | .ok (some .corrupt) => none
  | .ok (some (.blob responseData)) => some responseData

/-- `CacheClient.store_response(query, response)`: SET the derived key to
`json.dumps({"response": response})` with TTL; `False` on an unsuccessful SET
or on any backend exception. -/
def storeResponse (client : CacheClient) (env : RedisEnv) (query response : String) :
    Bool :=
  let cacheKey := generateCacheKey client query
  match env.set cacheKey (responseWrapper response) with
  | .error _ => false
  | .ok success => success

/-- A concrete redis backend over an association list of stored values
(no failures): used to state the store-then-find round trip. -/
def redisOfMap (m : List (String × Json)) : RedisEnv where
  get := fun k => .ok (((m.find? (fun e => e.1 = k)).map (·.2)).map .blob)
  set := fun _ _ => .ok true

/-- The map after `redis.set key value`: overwrite-or-insert. -/
def redisMapSet (m : List (String × Json)) (k : String) (v : Json) :
    List (String × Json) :=
  if m.any (fun e => e.1 = k) then m.map (fun e => if e.1 = k then (k, v) else e)
  else m ++ [(k, v)]

/-- A search request as issued by the API layer: the cache key derivation uses
only the query text, never the limit or the filters. -/
structure SearchRequest where
  query : String
  limit : Nat
  filters : List (String × String)

/-- The cache key the client computes for a request (its call sites pass only
the query text to `_generate_cache_key`). -/
def cacheKeyForRequest (client : CacheClient) (req : SearchRequest) : String :=
  generateCacheKey client req.query

/-! ## Qdrant vector store client (`src/common-lib/arxiv_lib/vector_db/qdrant.py`) -/

/-- Dense embedding vector.  Claims never compute with the float entries, so
they are modelled by an arbitrary integer carrier. -/
abbrev DenseVec := List Int

/-- A well-formed sparse embedding (`models.SparseVector`). -/
structure SparseVec where
  indices : List Nat
  values : List Int
deriving DecidableEq, Repr

/-- The sparse-embedding dict as it reaches `_hybrid_search` — either key may
be missing (`"indices" not in sparse_vector`); both missing models the empty,
falsy dict. -/
structure SparseDict where
  indices : Option (List Nat)
  values : Option (List Int)
deriving DecidableEq, Repr

/-- The `query_vector` dict argument of `search_docs`; either key may be
missing or hold an empty (falsy) list; both keys missing models the empty,
falsy dict. -/
structure QueryVec where
  embeddings : Option (List DenseVec)
  sparseEmbeddings : Option (List SparseDict)
deriving DecidableEq, Repr

/-- Python truthiness of the `query_vector` dict: `{}` is falsy. -/
def QueryVec.isFalsy (qv : QueryVec) : Bool :=
  qv.embeddings = none && qv.sparseEmbeddings = none

/-- A metadata filter: the `filter` dict of `search_docs` (`None` is modelled
by `Option.none` at the call site, `{}` by the empty list). -/
abbrev FilterDict := List (String × String)

/-- `QdrantDB._create_filter`: exact-match `must` conjunction over the fields,
raising on a falsy input. -/
def createFilter (filterDict : FilterDict) : Except PyErr FilterDict :=
  if filterDict = [] then .error (.valueError "filter_dict must be a non-empty dictionary")
  else .ok filterDict

/-- The query that `search_docs` hands to `client.query_points`:
either a pure dense top-k query (`using="dense"`, no prefetch, no fusion), or
the hybrid plan of `_hybrid_search` — a sparse prefetch plus a dense prefetch
with `score_threshold=DENSE_SCORE_THRESHOLD`, fused under
`models.FusionQuery(fusion=models.Fusion.RRF)`. -/
inductive QueryPlan where
  | dense (vec : DenseVec) (filter : Option FilterDict) (limit : Int)
  | rrfFusion (sparsePrefetch : SparseVec) (densePrefetch : DenseVec)
      (filter : Option FilterDict) (limit : Int)
deriving DecidableEq, Repr

/-- A scored point returned by the store. -/
structure ScoredPoint where
  id : Nat
  score : Int
  payload : List (String × String)
deriving DecidableEq, Repr

/-- The result records `search_docs` builds from `results.points`. -/
structure SearchResult where
  id : Nat
  score : Int
  payload : List (String × String)
deriving DecidableEq, Repr

/-- The store boundary for queries: `client.query_points`, a call that may
fail store-side. -/
structure SearchEnv where
  queryPoints : QueryPlan → Except PyErr (List ScoredPoint)

/-- `QdrantDB._hybrid_search` up to the issuing of the store call: its two
argument validations run before its `try` block, so their `ValueError`s
propagate to the caller's `except` clauses. -/
def hybridSearchPlan (sparseVector : SparseDict) (denseVector : DenseVec)
    (queryFilter : Option FilterDict) (limit : Int) : Except PyErr QueryPlan :=
  if sparseVector.indices = none && sparseVector.values = none then
    .error (.valueError "sparse_vector must be a non-empty dict")
  else
    match sparseVector.indices, sparseVector.values with
    | some idx, some vals => .ok (.rrfFusion ⟨idx, vals⟩ denseVector queryFilter limit)
    | _, _ => .error (.valueError "sparse_vector must contain 'indices' and 'values' keys")

/-- The error translation of `_hybrid_search`'s `try` block:
`UnexpectedResponse` is re-raised, anything else becomes
`RuntimeError("Failed to perform hybrid search: ...")`. -/
def hybridWrapErr (e : PyErr) : PyErr :=
  match e with
  | .unexpectedResponse => .unexpectedResponse
  | _ => .runtimeError "Failed to perform hybrid search"

/-- The error translation of `search_docs`'s `try` block:
`UnexpectedResponse` is re-raised, anything else (including the internal
`ValueError`s raised inside the `try`) becomes
`RuntimeError("Failed to search documents: ...")`. -/
def searchWrapErr (e : PyErr) : PyErr :=
  match e with
  | .unexpectedResponse => .unexpectedResponse
  | _ => .runtimeError "Failed to search documents"

/-- Line 311: `filtering = self._create_filter(filter) if filter else None`
(`filter` truthy = present and non-empty). -/
def computeFiltering (filter : Option FilterDict) : Except PyErr (Option FilterDict) :=
  match filter with
  | none => .ok none
  | some f => if f = [] then .ok none else (createFilter f).map some

/-- The filter `search_docs` ends up passing to the store. -/
def filteringOf (filter : Option FilterDict) : Option FilterDict :=
  match filter with
  | none => none
  | some f => if f = [] then none else some f

/-- `QdrantDB.search_docs(collection_name, query_vector, limit, hybrid,
filter)`.  Returns the Python outcome together with the log of store queries
actually issued (empty list = no store I/O happened). -/
def searchDocs (env : SearchEnv) (collectionName : String) (queryVector : QueryVec)
    (limit : Int) (hybrid : Bool) (filter : Option FilterDict) :
    Except PyErr (List SearchResult) × List QueryPlan :=
  -- validations before the `try` block: raise `ValueError` directly
  if collectionName = "" then
    (.error (.valueError "collection_name must be a non-empty string"), [])
  else if limit ≤ 0 then
    (.error (.valueError "limit must be a positive integer"), [])
  else if queryVector.isFalsy then
    (.error (.valueError "query_vector must be a non-empty dict"), [])
  else
    -- line 311: `filtering = self._create_filter(filter) if filter else None`,
    -- also before the `try` block (`filter` truthy = present and non-empty)
    match computeFiltering filter with
    | .error e => (.error e, [])
    | .ok filtering =>
      -- the `try` block
      let body : Except PyErr QueryPlan :=
        match queryVector.embeddings with
        | none => .error (.valueError "query_vector must contain non-empty 'embeddings' list")
        | some [] => .error (.valueError "query_vector must contain non-empty 'embeddings' list")
        | some (denseEmbedding :: _) =>
          if hybrid then
            match queryVector.sparseEmbeddings with
            | none => .error (.valueError "query_vector must contain 'sparse_embeddings' for hybrid search")
            | some [] => .error (.valueError "query_vector must contain 'sparse_embeddings' for hybrid search")
            | some (sparseEmbedding :: _) =>
              hybridSearchPlan sparseEmbedding denseEmbedding filtering limit
          else
            .ok (.dense denseEmbedding filtering limit)
      match body with
      | .error e => (.error (searchWrapErr e), [])
      | .ok plan =>
        -- the store call is issued exactly here
        match env.queryPoints plan with
        | .error e =>
          let e' := match plan with
                    | .rrfFusion _ _ _ _ => hybridWrapErr e
                    | .dense _ _ _ => e
          (.error (searchWrapErr e'), [plan])
        | .ok points =>
          (.ok (points.map (fun r => ⟨r.id, r.score, r.payload⟩)), [plan])

/-! ## Chunks, papers and the indexing payload
(`src/data_ingestion/src/services/indexing/hybrid_indexer.py`) -/

/-- Chunk metadata produced by the chunker
(`TextChunker`; the indexer consumes these fields). -/
structure ChunkMeta where
  chunkIndex : Nat
  wordCount : Nat
  startChar : Nat
  endChar : Nat
  sectionTitle : String
deriving DecidableEq, Repr

/-- A chunk as the indexer reads it. -/
structure Chunk where
  arxivId : String
  paperId : String
  text : String
  metadata : ChunkMeta
deriving DecidableEq, Repr

/-- `paper_data` dict fields read by `index_paper` (`Option.none` models an
absent key). -/
structure PaperData where
  id : Option String
  arxivId : Option String
  title : Option String
  abstract : Option String
  rawText : Option String
  fullText : Option String
  authors : Option (List String ⊕ String)
  categories : Option (List String)
  publishedDate : Option String
  sections : Option (List (String × String))
deriving Repr

/-- The `chunk_metadata` dict built per chunk (lines 146–165). -/
structure ChunkPayload where
  arxivId : String
  paperId : String
  chunkIndex : Nat
  chunkText : String
  chunkWordCount : Nat
  startChar : Nat
  endChar : Nat
  sectionTitle : String
  embeddingModel : String
  sparseModel : String
  title : String
  authors : String
  abstract : String
  categories : List String
  publishedDate : Option String
deriving DecidableEq, Repr

/-- `", ".join(authors)` when the field is a list, the raw value when it is a
string, `""` when absent. -/
def authorsField (a : Option (List String ⊕ String)) : String :=
  match a with
  | none => ""
  | some (.inl l) => String.intercalate ", " l
  | some (.inr s) => s

/-- Build the `chunk_metadata` dict for one chunk. -/
def buildChunkPayload (paperData : PaperData) (chunk : Chunk) : ChunkPayload where
  arxivId := chunk.arxivId
  paperId := chunk.paperId
  chunkIndex := chunk.metadata.chunkIndex
  chunkText := chunk.text
  chunkWordCount := chunk.metadata.wordCount
  startChar := chunk.metadata.startChar
  endChar := chunk.metadata.endChar
  sectionTitle := chunk.metadata.sectionTitle
  embeddingModel := "sentence-transformers/all-MiniLM-L6-v2"
  sparseModel := "prithivida/Splade_PP_en_v1"
  title := paperData.title.getD ""
  authors := authorsField paperData.authors
  abstract := paperData.abstract.getD ""
  categories := paperData.categories.getD []
  publishedDate := paperData.publishedDate

/-- One entry of `chunks_with_embeddings` (lines 167–174): the `id` is the
string handed to `add_batch_docs`. -/
structure DocPoint where
  id : String
  metadata : ChunkPayload
  denseEmbedding : DenseVec
  sparseEmbedding : SparseVec
deriving DecidableEq, Repr

/-! ## `QdrantDB.add_batch_docs` and upsert semantics -/

/-- A point as `add_batch_docs` ships it to `client.upsert`: the numeric id is
`_string_to_positive_int(doc["id"])`. -/
structure QdrantPoint where
  id : Nat
  denseVector : DenseVec
  sparseVector : Option SparseVec
  payload : ChunkPayload
deriving DecidableEq, Repr

/-- `QdrantDB.add_batch_docs(collection_name, docs, hybrid)` reduced to the
batch it upserts; validation errors before the `try` raise `ValueError`
directly, the per-document validations inside the `try` are re-raised as
`RuntimeError` by the catch-all. -/
def addBatchDocs (collectionName : String) (docs : List DocPoint) (hybrid : Bool) :
    Except PyErr (List QdrantPoint) :=
  if collectionName = "" then .error (.valueError "collection_name must be a non-empty string")
  else if docs = [] then .error (.valueError "docs must be a non-empty list")
  else
    let body : Except PyErr (List QdrantPoint) :=
      if docs.any (fun d => d.id = "") then
        .error (.valueError "'id' must be a non-empty string")
      else if docs.any (fun d => d.denseEmbedding = []) then
        .error (.valueError "'dense_embedding' must be a non-empty list")
      else
        .ok (docs.map (fun d =>
          { id := stringToPositiveInt d.id
            denseVector := d.denseEmbedding
            sparseVector := if hybrid then some d.sparseEmbedding else none
            payload := d.metadata }))
    match body with
    | .error e => .error (.runtimeError s!"Failed to add batch documents: {reprStr e}")
    | .ok pts => .ok pts

/-- Modelled from the spec: the qdrant server's upsert semantics (the server
itself is an external collaborator; §4.4 of the spec: "each point keyed by a
deterministic id; duplicate ids overwrite in place (idempotent re-index)").
A collection is an association list from numeric point id to stored point;
upserting replaces the point with an equal id, otherwise appends. -/
def upsertPoint (store : List (Nat × QdrantPoint)) (pt : QdrantPoint) :
    List (Nat × QdrantPoint) :=
  if store.any (fun e => e.1 = pt.id) then
    store.map (fun e => if e.1 = pt.id then (pt.id, pt) else e)
  else store ++ [(pt.id, pt)]

/-- Upsert a whole batch in order. -/
def upsertBatch (store : List (Nat × QdrantPoint)) (pts : List QdrantPoint) :
    List (Nat × QdrantPoint) :=
  pts.foldl upsertPoint store

/-! ## `HybridIndexingService.index_paper` -/

/-- Observable collaborator calls made by `index_paper` (the best-effort
collection creation of lines 61–66 swallows its own errors and is not
observed by any claim, so it is not logged). -/
inductive IndexEffect where
  /-- `self.chunker.chunk_paper(...)` was invoked -/
  | chunk
  /-- `generate_dense_embeddings(texts=batch)` was invoked -/
  | embedDense (batch : List String)
  /-- `generate_sparse_embeddings(texts=batch)` was invoked -/
  | embedSparse (batch : List String)
  /-- `add_batch_docs(collection_name, batch, hybrid=True)` was invoked -/
  | upsert (collectionName : String) (batch : List DocPoint)
deriving DecidableEq, Repr

/-- The collaborators of `HybridIndexingService`, as fallible functions:
the vector-db client, the chunker, the embeddings client, and the stream of
`uuid4()` draws (`uuidGen k` is the k-th draw). -/
structure IndexEnv where
  listCollections : Except PyErr (List String)
  createCollection : String → Except PyErr Unit
  contentExists : String → String → Except PyErr Bool
  chunkPaper : String → String → String → String → String →
      Option (List (String × String)) → Except PyErr (List Chunk)
  genDense : List String → Except PyErr (List DenseVec)
  genSparse : List String → Except PyErr (List SparseVec)
  addBatch : String → List DocPoint → Except PyErr Unit
  uuidGen : Nat → String

/-- The statistics dict `index_paper` returns.
`sparseEmbeddingsGenerated` is `some` only on the success path, which is the
only path whose dict carries the `"sparse_embeddings_generated"` key. -/
structure IndexStats where
  chunksCreated : Nat
  chunksIndexed : Nat
  embeddingsGenerated : Nat
  sparseEmbeddingsGenerated : Option Nat
  errors : Nat
deriving DecidableEq, Repr

/-- The all-zero statistics with a given error count. -/
def zeroStats (errors : Nat) : IndexStats :=
  ⟨0, 0, 0, none, errors⟩

/-- `range(0, len(l), n)` slicing: split a list into consecutive batches of
`n` (callers guard `n ≠ 0`, mirroring Python's `range` rejecting step 0);
fuelled by the list length. -/
def batchesOfAux : Nat → Nat → List α → List (List α)
  | 0, _, _ => []
  | _ + 1, _, [] => []
  | fuel + 1, n, l => l.take n :: batchesOfAux fuel n (l.drop n)

/-- Split `l` into batches of size `n` (total; meaningful for `n ≠ 0`). -/
def batchesOf (n : Nat) (l : List α) : List (List α) :=
  batchesOfAux l.length n l

/-- Lines 104–115: the embedding loop.  For each batch of texts it calls the
dense client then the sparse client and extends the two accumulator lists;
any failure aborts the loop (and is caught by `index_paper`'s catch-all). -/
def embedLoop (env : IndexEnv) :
    List (List String) → Except PyErr (List DenseVec × List SparseVec) × List IndexEffect
  | [] => (.ok ([], []), [])
  | batch :: rest =>
    match env.genDense batch with
    | .error e => (.error e, [.embedDense batch])
    | .ok batchDense =>
      match env.genSparse batch with
      | .error e => (.error e, [.embedDense batch, .embedSparse batch])
      | .ok batchSparse =>
        let (restRes, restLog) := embedLoop env rest
        (match restRes with
         | .error e => .error e
         | .ok (dense, sparse) => .ok (batchDense ++ dense, batchSparse ++ sparse),
         .embedDense batch :: .embedSparse batch :: restLog)

/-- Lines 140–174: pair each chunk positionally with its dense and sparse
embedding (the `zip`), drawing one `uuid4()` per chunk for the point id. -/
def buildPoints (uuidGen : Nat → String) (paperData : PaperData)
    (chunks : List Chunk) (dense : List DenseVec) (sparse : List SparseVec) :
    List DocPoint :=
  ((chunks.zip (dense.zip sparse)).enum).map (fun p =>
    { id := uuidGen p.1
      metadata := buildChunkPayload paperData p.2.1
      denseEmbedding := p.2.2.1
      sparseEmbedding := p.2.2.2 })

/-- Lines 176–183: the upsert loop; any failure aborts the loop (and is
caught by `index_paper`'s catch-all), leaving the earlier batches upserted. -/
def upsertLoop (env : IndexEnv) (collectionName : String) :
    List (List DocPoint) → Except PyErr Unit × List IndexEffect
  | [] => (.ok (), [])
  | batch :: rest =>
    match env.addBatch collectionName batch with
    | .error e => (.error e, [.upsert collectionName batch])
    | .ok _ =>
      let (restRes, restLog) := upsertLoop env collectionName rest
      (restRes, .upsert collectionName batch :: restLog)

/-- Python truthiness of `paper_data.get("arxiv_id")`: absent or empty. -/
def optStrFalsy (o : Option String) : Bool :=
  match o with
  | none => true
  | some s => s = ""

/-- `paper_data.get("raw_text", paper_data.get("full_text", ""))`. -/
def fullTextOf (paperData : PaperData) : String :=
  match paperData.rawText with
  | some t => t
  | none => paperData.fullText.getD ""

/-- Lines 117–193 of `index_paper`: the two count-mismatch aborts, the
positional pairing into points, and the batched upsert loop. -/
def indexAfterEmbed (env : IndexEnv) (batchSize : Nat) (paperData : PaperData)
    (collectionName : String) (chunks : List Chunk)
    (denseEmbeddings : List DenseVec) (sparseEmbeddings : List SparseVec)
    (embLog : List IndexEffect) : Except PyErr IndexStats × List IndexEffect :=
  if denseEmbeddings.length ≠ chunks.length then
    (.ok ⟨chunks.length, 0, denseEmbeddings.length, none, 1⟩, .chunk :: embLog)
  else if sparseEmbeddings.length ≠ chunks.length then
    (.ok ⟨chunks.length, 0, denseEmbeddings.length, none, 1⟩, .chunk :: embLog)
  else
    let points := buildPoints env.uuidGen paperData chunks
        denseEmbeddings sparseEmbeddings
    let (upRes, upLog) := upsertLoop env collectionName (batchesOf batchSize points)
    match upRes with
    | .error _ => (.ok (zeroStats 1), .chunk :: embLog ++ upLog)
    | .ok _ =>
      (.ok ⟨chunks.length, chunks.length, denseEmbeddings.length,
            some sparseEmbeddings.length, 0⟩,
       .chunk :: embLog ++ upLog)

/-- Lines 88–193 of `index_paper`: the empty-chunks early return, the batched
embedding loop (`range(0, len, 0)` raises `ValueError`, caught by the
catch-all), then `indexAfterEmbed`. -/
def indexAfterChunks (env : IndexEnv) (batchSize : Nat) (paperData : PaperData)
    (collectionName : String) (chunks : List Chunk) :
    Except PyErr IndexStats × List IndexEffect :=
  match chunks with
  | [] => (.ok (zeroStats 0), [.chunk])
  | _ :: _ =>
    if batchSize = 0 then (.ok (zeroStats 1), [.chunk])
    else
      let chunkTexts := chunks.map (·.text)
      match embedLoop env (batchesOf batchSize chunkTexts) with
      | (.error _, embLog) => (.ok (zeroStats 1), .chunk :: embLog)
      | (.ok (denseEmbeddings, sparseEmbeddings), embLog) =>
        indexAfterEmbed env batchSize paperData collectionName chunks
          denseEmbeddings sparseEmbeddings embLog

/-- The big `try` block of `index_paper` (lines 77–202): any internal failure
is caught and reported as a statistics dict with `errors = 1`. -/
def indexTryBlock (env : IndexEnv) (batchSize : Nat) (paperData : PaperData)
    (collectionName : String) (arxivId : String) :
    Except PyErr IndexStats × List IndexEffect :=
  match env.chunkPaper (paperData.title.getD "") (paperData.abstract.getD "")
      (fullTextOf paperData) arxivId (paperData.id.getD "") paperData.sections with
  | .error _ => (.ok (zeroStats 1), [.chunk])
  | .ok chunks => indexAfterChunks env batchSize paperData collectionName chunks

/-- `HybridIndexingService.index_paper(paper_data, collection_name)` with
embedding batch size `batchSize` (constructor default 10).  The returned
`Except` is the Python outcome (`.error` = an uncaught exception escaping the
method); the list is the log of collaborator calls. -/
def indexPaper (env : IndexEnv) (batchSize : Nat) (paperData : PaperData)
    (collectionName : String) : Except PyErr IndexStats × List IndexEffect :=
  if optStrFalsy paperData.arxivId then (.ok (zeroStats 1), [])
  else
    let arxivId := paperData.arxivId.getD ""
    -- lines 61–66: best-effort collection creation, errors swallowed
    let _ensure : Unit :=
      match env.listCollections with
      | .error _ => ()
      | .ok names =>
        if collectionName ∈ names then ()
        else match env.createCollection collectionName with
             | _ => ()
    -- line 68: the only call whose exception escapes `index_paper`
    match env.contentExists collectionName arxivId with
    | .error e => (.error e, [])
    | .ok true => (.ok (zeroStats 0), [])
    | .ok false => indexTryBlock env batchSize paperData collectionName arxivId

/-! ## Task layer (`src/arxiv_backend/src/repositories/tasks.py`,
`src/arxiv_backend/src/services/tasks.py`) -/

/-- `TaskStatus` (`src/common-lib/arxiv_lib/db_models/enums.py`). -/
inductive TaskStatus where
  | pending
  | running
  | completed
  | failed
deriving DecidableEq, Repr

/-- Task parameters, opaque to the task layer. -/
abbrev TaskParams := List (String × String)

/-- An `ArxivTask` row (`src/common-lib/arxiv_lib/db_models/models.py`):
`status` defaults to `pending`, `result`/`error_type`/`error_message` are
nullable. -/
structure ArxivTask where
  taskId : String
  taskType : String
  parameters : TaskParams
  status : TaskStatus
  result : Option String
  errorType : Option String
  errorMessage : Option String
  ownerId : Int
deriving DecidableEq, Repr

/-- The tasks table, newest first. -/
abbrev TaskDb := List ArxivTask

/-- `TaskRepository.get_task(task_id)`: `one_or_none` by `task_id`. -/
def getTask (db : TaskDb) (taskId : String) : Option ArxivTask :=
  db.find? (fun t => t.taskId = taskId)

/-- `TaskRepository.create(task_name, parameters, owner_id)`: insert a fresh
row; the model default `status = pending` and null result/error fields come
from the column defaults. -/
def createTask (db : TaskDb) (uuid : String) (taskName : String)
    (parameters : TaskParams) (ownerId : Int) : ArxivTask × TaskDb :=
  let task : ArxivTask :=
    { taskId := uuid, taskType := taskName, parameters := parameters
      status := .pending, result := none, errorType := none
      errorMessage := none, ownerId := ownerId }
  (task, task :: db)

/-- `TaskRepository.reset_task(task_id)`: `EntityNotFound` when no row
matches, `ConflictError` unless the status is `failed`; otherwise set
`status = pending`, clear `error_type`/`error_message`, and persist. -/
def resetTask (db : TaskDb) (taskId : String) : Except PyErr (ArxivTask × TaskDb) :=
  match getTask db taskId with
  | none => .error (.entityNotFound s!"task with id {taskId} not found")
  | some task =>
    if task.status ≠ .failed then .error (.conflictError "only failed tasks can be reset")
    else
      let task' := { task with status := .pending, errorType := none, errorMessage := none }
      .ok (task', db.map (fun t => if t.taskId = taskId then task' else t))

/-- A broker enqueue as `CeleryClient.send_task(task_name, task_id, kwargs)`
performs it: celery is handed the durable task's id, so the handle's
`task_id` is that same id. -/
structure BrokerJob where
  taskName : String
  taskId : String
  params : TaskParams
deriving DecidableEq, Repr

/-- Observable events of the task service, in program order. -/
inductive TaskEvent where
  /-- the repository committed a task row -/
  | persist (task : ArxivTask)
  /-- `celery_client.send_task` enqueued a broker job -/
  | enqueue (job : BrokerJob)
  /-- `result.get()` — blocking read of the broker result -/
  | brokerGet
  /-- `result.forget()` — broker-side result discarded -/
  | brokerForget
deriving DecidableEq, Repr

/-- `TaskService.async_task(task_name, params, owner_id)`: create the row,
then enqueue; returns the broker handle's task id and the event trace. -/
def asyncTask (db : TaskDb) (uuid : String) (taskName : String)
    (params : TaskParams) (ownerId : Int) : String × TaskDb × List TaskEvent :=
  let (log, db') := createTask db uuid taskName params ownerId
  let job : BrokerJob := ⟨taskName, log.taskId, params⟩
  (job.taskId, db', [.persist log, .enqueue job])

/-- `TaskService.run_task(task_name, params, owner_id)`: create the row,
enqueue, block on `result.get()`, then `result.forget()`; returns the broker
output and the event trace. -/
def runTask (db : TaskDb) (uuid : String) (taskName : String)
    (params : TaskParams) (ownerId : Int) (brokerOutput : String) :
    String × TaskDb × List TaskEvent :=
  let (log, db') := createTask db uuid taskName params ownerId
  let job : BrokerJob := ⟨taskName, log.taskId, params⟩
  (brokerOutput, db', [.persist log, .enqueue job, .brokerGet, .brokerForget])

/-- `TaskService.retry_task(task_id)`: reset via the repository, then
re-enqueue with the task's original `task_type` and `parameters` under the
same `task_id`; returns the broker handle's task id, the new table and the
enqueued job. -/
def retryTask (db : TaskDb) (taskId : String) :
    Except PyErr (String × TaskDb × BrokerJob) :=
  match resetTask db taskId with
  | .error e => .error e
  | .ok (task, db') =>
    let job : BrokerJob := ⟨task.taskType, task.taskId, task.parameters⟩
    .ok (job.taskId, db', job)

/-! ## Theorems -/

/-- `find?` over the replace-by-id map finds the replacement. -/
theorem getTask_map_replace (db : TaskDb) (tid : String) (task task' : ArxivTask)
    (h : getTask db tid = some task) (h2 : task'.taskId = tid) :
    getTask (db.map (fun t => if t.taskId = tid then task' else t)) tid = some task' := by
  induction db with
  | nil => simp [getTask] at h
  | cons a l ih =>
    by_cases ha : a.taskId = tid
    · simp [getTask, List.find?, ha, h2]
    · simp only [getTask, List.map_cons, if_neg ha] at h ⊢
      rw [List.find?_cons_of_neg _ (by simp [ha])] at h
      rw [List.find?_cons_of_neg _ (by simp [ha])]
      exact ih h

/-- C3: for every task id, reset/retry raises `EntityNotFound` when no task
with that id exists, raises `ConflictError` whenever the status is `pending`,
`running` or `completed`, and on a `failed` task sets `status = pending`,
clears `error_type`/`error_message`, and re-enqueues a broker job with the
task's original `task_type` and `parameters` under the same `task_id`. -/
theorem retryTask_state_machine (db : TaskDb) (taskId : String) :
    (getTask db taskId = none →
      retryTask db taskId = .error (.entityNotFound s!"task with id {taskId} not found"))
    ∧ (∀ task, getTask db taskId = some task → task.status ≠ .failed →
        retryTask db taskId = .error (.conflictError "only failed tasks can be reset"))
    ∧ (∀ task, getTask db taskId = some task → task.status = .failed →
        ∃ db', retryTask db taskId =
            .ok (task.taskId, db', ⟨task.taskType, task.taskId, task.parameters⟩)
          ∧ getTask db' taskId =
              some { task with status := .pending, errorType := none, errorMessage := none }) := by
  refine ⟨?_, ?_, ?_⟩
  · intro h
    simp [retryTask, resetTask, h]
  · intro task h hs
    simp [retryTask, resetTask, h, hs]
  · intro task h hs
    refine ⟨db.map (fun t => if t.taskId = taskId then
      { task with status := .pending, errorType := none, errorMessage := none } else t), ?_, ?_⟩
    · simp [retryTask, resetTask, h, hs]
    · exact getTask_map_replace db taskId task _ h (by
        have := List.find?_some h
        simpa using this)

/-- Closed witness for `retryTask_state_machine` on a one-row table. -/
theorem retryTask_state_machine_witness :
    (retryTask [] "t1" = .error (.entityNotFound "task with id t1 not found"))
    ∧ (retryTask [⟨"t1", "embed", [("q", "x")], .running, none, none, none, 7⟩] "t1"
        = .error (.conflictError "only failed tasks can be reset"))
    ∧ (∃ db', retryTask [⟨"t1", "embed", [("q", "x")], .failed, none,
          some "Boom", some "boom msg", 7⟩] "t1"
        = .ok ("t1", db', ⟨"embed", "t1", [("q", "x")]⟩)) := by
  refine ⟨?_, ?_, ?_⟩
  · exact (retryTask_state_machine [] "t1").1 (by decide)
  · exact (retryTask_state_machine
      [⟨"t1", "embed", [("q", "x")], .running, none, none, none, 7⟩] "t1").2.1
      ⟨"t1", "embed", [("q", "x")], .running, none, none, none, 7⟩ (by decide) (by decide)
  · obtain ⟨db', h, -⟩ := (retryTask_state_machine
      [⟨"t1", "embed", [("q", "x")], .failed, none, some "Boom", some "boom msg", 7⟩]
      "t1").2.2
      ⟨"t1", "embed", [("q", "x")], .failed, none, some "Boom", some "boom msg", 7⟩
      (by decide) (by decide)
    exact ⟨db', h⟩

/-- C9: every task submission persists a durable `pending` task row before the
broker job is enqueued (the event trace lists `persist` strictly before
`enqueue`, with the job carrying the persisted row's `task_id`), and the
blocking variant discards the broker-side result (`forget`) immediately after
the synchronous read (`get`). -/
theorem task_persisted_before_enqueue_and_forget_after_get
    (db : TaskDb) (uuid taskName : String) (params : TaskParams) (ownerId : Int)
    (brokerOutput : String) :
    ∃ t : ArxivTask,
      t.status = .pending
      ∧ (asyncTask db uuid taskName params ownerId).2.2
          = [.persist t, .enqueue ⟨taskName, t.taskId, params⟩]
      ∧ (asyncTask db uuid taskName params ownerId).1 = t.taskId
      ∧ (runTask db uuid taskName params ownerId brokerOutput).2.2
          = [.persist t, .enqueue ⟨taskName, t.taskId, params⟩, .brokerGet, .brokerForget]
      ∧ getTask (asyncTask db uuid taskName params ownerId).2.1 t.taskId = some t := by
  refine ⟨⟨uuid, taskName, params, .pending, none, none, none, ownerId⟩,
    rfl, rfl, rfl, rfl, ?_⟩
  simp [asyncTask, createTask, getTask, List.find?]

/-- C6: for every query, any cache-backend failure is absorbed at the cache
boundary — a failing or corrupt `GET` makes `find_cached_response` report a
miss (`None`), and a failing `SET` makes `store_response` report `False`;
being total functions into `Option`/`Bool`, neither lets a backend exception
propagate to its caller. -/
theorem cache_failures_absorbed (client : CacheClient) (env : RedisEnv)
    (query response : String) :
    (∀ e, env.get (generateCacheKey client query) = .error e →
        findCachedResponse client env query = none)
    ∧ (env.get (generateCacheKey client query) = .ok (some .corrupt) →
        findCachedResponse client env query = none)
    ∧ (∀ e, env.set (generateCacheKey client query) (responseWrapper response) = .error e →
        storeResponse client env query response = false) := by
  refine ⟨fun e he => ?_, fun hc => ?_, fun e he => ?_⟩
  · simp [findCachedResponse, he]
  · simp [findCachedResponse, hc]
  · simp [storeResponse, he]

/-- Closed witness for `cache_failures_absorbed`: a backend whose every call
raises a connection error. -/
theorem cache_failures_absorbed_witness :
    findCachedResponse ⟨fun s => s, 24⟩
        ⟨fun _ => .error (.exn "connection refused"), fun _ _ => .error (.exn "connection refused")⟩
        "what is RAG" = none
    ∧ storeResponse ⟨fun s => s, 24⟩
        ⟨fun _ => .error (.exn "connection refused"), fun _ _ => .error (.exn "connection refused")⟩
        "what is RAG" "answer" = false := by
  refine ⟨?_, ?_⟩
  · exact (cache_failures_absorbed ⟨fun s => s, 24⟩
      ⟨fun _ => .error (.exn "connection refused"), fun _ _ => .error (.exn "connection refused")⟩
      "what is RAG" "answer").1 (.exn "connection refused") rfl
  · exact (cache_failures_absorbed ⟨fun s => s, 24⟩
      ⟨fun _ => .error (.exn "connection refused"), fun _ _ => .error (.exn "connection refused")⟩
      "what is RAG" "answer").2.2 (.exn "connection refused") rfl

/-- Overwrite-or-insert puts the value under the key where `find?` sees it. -/
theorem redisMapSet_find (m : List (String × Json)) (k : String) (v : Json) :
    (redisMapSet m k v).find? (fun e => e.1 = k) = some (k, v) := by
  induction m with
  | nil => simp [redisMapSet, List.find?]
  | cons a l ih =>
    by_cases ha : a.1 = k
    · simp [redisMapSet, ha, List.find?]
    · cases hl : l.any (fun e => decide (e.1 = k)) with
      | true =>
        have hstep : redisMapSet (a :: l) k v
            = a :: (l.map fun e => if e.1 = k then (k, v) else e) := by
          simp [redisMapSet, List.any_cons, hl, if_neg ha]
        rw [hstep, List.find?_cons_of_neg _ (by simpa using ha)]
        have hl2 : redisMapSet l k v = l.map fun e => if e.1 = k then (k, v) else e := by
          simp [redisMapSet, hl]
        rw [hl2] at ih
        exact ih
      | false =>
        have hstep : redisMapSet (a :: l) k v = a :: (l ++ [(k, v)]) := by
          simp [redisMapSet, List.any_cons, hl, if_neg ha]
        rw [hstep, List.find?_cons_of_neg _ (by simpa using ha)]
        have hl2 : redisMapSet l k v = l ++ [(k, v)] := by
          simp [redisMapSet, hl]
        rw [hl2] at ih
        exact ih

/-- C7 (amended): the cache key is a deterministic hash of the query text
only — two requests with identical text but different result-count or filters
produce the same key — and `store(q, r)` immediately followed by `find(q)`
returns the stored wrapper object `{"response": r}`, whose `"response"` field
is `r` (the call sites read it back via `.get("response")`). -/
theorem cache_key_text_only_and_roundtrip (client : CacheClient)
    (req1 req2 : SearchRequest) (m : List (String × Json)) (q r : String)
    (hq : req1.query = req2.query) :
    cacheKeyForRequest client req1 = cacheKeyForRequest client req2
    ∧ findCachedResponse client
        (redisOfMap (redisMapSet m (generateCacheKey client q) (responseWrapper r))) q
        = some (responseWrapper r)
    ∧ (responseWrapper r).lookupField "response" = some r := by
  refine ⟨by simp [cacheKeyForRequest, hq], ?_, by simp [responseWrapper, Json.lookupField]⟩
  simp [findCachedResponse, redisOfMap, redisMapSet_find]

/-- Closed witness for `cache_key_text_only_and_roundtrip`: two requests with
the same text but different limits and filters, and a store-then-find round
trip on an empty backend. -/
theorem cache_key_text_only_and_roundtrip_witness :
    cacheKeyForRequest ⟨fun s => s, 24⟩ ⟨"what is RAG", 5, []⟩
      = cacheKeyForRequest ⟨fun s => s, 24⟩ ⟨"what is RAG", 50, [("category", "cs.CL")]⟩
    ∧ findCachedResponse ⟨fun s => s, 24⟩
        (redisOfMap (redisMapSet [] (generateCacheKey ⟨fun s => s, 24⟩ "what is RAG")
          (responseWrapper "an answer"))) "what is RAG"
      = some (responseWrapper "an answer") := by
  have h := cache_key_text_only_and_roundtrip ⟨fun s => s, 24⟩
    ⟨"what is RAG", 5, []⟩ ⟨"what is RAG", 50, [("category", "cs.CL")]⟩
    [] "what is RAG" "an answer" rfl
  exact ⟨h.1, h.2.1⟩

/-- C7 (counterexample): `store(q, r)` followed by `find(q)` does not return
the response string `r` itself — it returns the parsed wrapper object
`{"response": r}`, which is a different value. -/
theorem cache_roundtrip_returns_wrapper_not_response :
    findCachedResponse ⟨fun s => s, 24⟩
        (redisOfMap (redisMapSet [] (generateCacheKey ⟨fun s => s, 24⟩ "q") (responseWrapper "hello")))
        "q" = some (Json.obj [("response", "hello")])
    ∧ Json.obj [("response", "hello")] ≠ Json.str "hello" := by
  refine ⟨?_, by decide⟩
  simp [findCachedResponse, redisOfMap, redisMapSet_find, responseWrapper]

/-- C4: for every document whose `arxiv_id` already has points in the
collection (the existence check answers `True`), `index_paper` is a no-op:
it returns `chunks_created = 0`, `chunks_indexed = 0`, `errors = 0`, and the
collaborator-call log is empty — no chunking, embedding, or upsert call is
ever made. -/
theorem indexPaper_skips_existing_document (env : IndexEnv) (batchSize : Nat)
    (paperData : PaperData) (collectionName : String) (aid : String)
    (hAid : paperData.arxivId = some aid) (hne : aid ≠ "")
    (hEx : env.contentExists collectionName aid = .ok true) :
    indexPaper env batchSize paperData collectionName = (.ok ⟨0, 0, 0, none, 0⟩, []) := by
  have hf : optStrFalsy paperData.arxivId = false := by
    simp [optStrFalsy, hAid, hne]
  have hg : paperData.arxivId.getD "" = aid := by simp [hAid]
  simp [indexPaper, hf, hg, hEx, zeroStats]

/-- Closed witness for `indexPaper_skips_existing_document`. -/
theorem indexPaper_skips_existing_document_witness :
    indexPaper
      ⟨.ok ["papers"], fun _ => .ok (), fun _ _ => .ok true,
       fun _ _ _ _ _ _ => .ok [], fun _ => .ok [], fun _ => .ok [],
       fun _ _ => .ok (), fun _ => "u"⟩
      10
      ⟨some "pid", some "2401.00001", some "T", some "A", some "body", none,
       none, none, none, none⟩
      "papers" = (.ok ⟨0, 0, 0, none, 0⟩, []) :=
  indexPaper_skips_existing_document
    ⟨.ok ["papers"], fun _ => .ok (), fun _ _ => .ok true,
     fun _ _ _ _ _ _ => .ok [], fun _ => .ok [], fun _ => .ok [],
     fun _ _ => .ok (), fun _ => "u"⟩
    10
    ⟨some "pid", some "2401.00001", some "T", some "A", some "body", none,
     none, none, none, none⟩
    "papers" "2401.00001" rfl (by decide) rfl

/-- `computeFiltering` never fails and yields `filteringOf`. -/
theorem computeFiltering_ok (filter : Option FilterDict) :
    computeFiltering filter = .ok (filteringOf filter) := by
  match filter with
  | none => rfl
  | some f =>
    by_cases hf : f = [] <;>
      simp [computeFiltering, filteringOf, createFilter, hf, Except.map]

/-- C5: a query issued with only a dense vector (`hybrid` unset) performs a
single pure dense top-k `query_points` call (`using="dense"`, no prefetch
lists, no RRF fusion); and any RRF-fusion query (sparse prefetch plus
dense-score-threshold prefetch) is issued only when `hybrid` is set and a
sparse vector is supplied. -/
theorem searchDocs_dense_only_no_fusion (env : SearchEnv) (collectionName : String)
    (queryVector : QueryVec) (limit : Int) (filter : Option FilterDict)
    (denseEmbedding : DenseVec) (restEmbeddings : List DenseVec)
    (hc : collectionName ≠ "") (hl : 0 < limit)
    (he : queryVector.embeddings = some (denseEmbedding :: restEmbeddings)) :
    (searchDocs env collectionName queryVector limit false filter).2
      = [.dense denseEmbedding (filteringOf filter) limit]
    ∧ ∀ (hybrid : Bool) (sp : SparseVec) (dp : DenseVec) (f : Option FilterDict) (l : Int),
        QueryPlan.rrfFusion sp dp f l ∈
            (searchDocs env collectionName queryVector limit hybrid filter).2 →
        hybrid = true ∧ ∃ s ss, queryVector.sparseEmbeddings = some (s :: ss) := by
  have hc' : (collectionName = "") = False := by simp [hc]
  have hl' : (limit ≤ 0) = False := by simp [hl, not_le]
  have hfal : queryVector.isFalsy = false := by
    simp [QueryVec.isFalsy, he]
  constructor
  · simp only [searchDocs, hc', if_false, hl', hfal, computeFiltering_ok, he,
      Bool.false_eq_true]
    cases henv : env.queryPoints (.dense denseEmbedding (filteringOf filter) limit) <;> simp
  · intro hybrid sp dp f l hmem
    simp only [searchDocs, hc', if_false, hl', hfal, computeFiltering_ok, he] at hmem
    cases hybrid with
    | false =>
      exfalso
      cases henv : env.queryPoints (.dense denseEmbedding (filteringOf filter) limit) <;>
        simp [henv] at hmem
    | true =>
      refine ⟨rfl, ?_⟩
      match hs : queryVector.sparseEmbeddings with
      | none => simp [hs] at hmem
      | some [] => simp [hs] at hmem
      | some (s :: ss) =>
        exact ⟨s, ss, rfl⟩

/-- Closed witness for `searchDocs_dense_only_no_fusion`: a dense-only query
issues exactly one pure dense plan. -/
theorem searchDocs_dense_only_no_fusion_witness :
    (searchDocs ⟨fun _ => .ok []⟩ "papers" ⟨some [[1, 2]], none⟩ 5 false none).2
      = [.dense [1, 2] none 5] :=
  (searchDocs_dense_only_no_fusion ⟨fun _ => .ok []⟩ "papers" ⟨some [[1, 2]], none⟩
    5 none [1, 2] [] (by decide) (by decide) rfl).1

/-- C8 (amended): validation failures — empty collection name, non-positive
limit, empty (falsy) `query_vector` dict — raise `ValueError` immediately with
no store I/O; a non-empty `query_vector` whose `embeddings` key is missing or
empty, or missing `sparse_embeddings` under hybrid, also fails before any
store I/O but surfaces as the catch-all's `RuntimeError` (wrapping the
internal `ValueError`); and store-side failures on both the dense and the
hybrid path propagate to the caller (`UnexpectedResponse` re-raised as is,
others wrapped in `RuntimeError`), never swallowed into a success. -/
theorem searchDocs_validation_and_store_propagation (env : SearchEnv)
    (collectionName : String) (queryVector : QueryVec) (limit : Int)
    (hybrid : Bool) (filter : Option FilterDict) :
    (collectionName = "" →
      searchDocs env collectionName queryVector limit hybrid filter
        = (.error (.valueError "collection_name must be a non-empty string"), []))
    ∧ (collectionName ≠ "" → limit ≤ 0 →
      searchDocs env collectionName queryVector limit hybrid filter
        = (.error (.valueError "limit must be a positive integer"), []))
    ∧ (collectionName ≠ "" → 0 < limit → queryVector.isFalsy →
      searchDocs env collectionName queryVector limit hybrid filter
        = (.error (.valueError "query_vector must be a non-empty dict"), []))
    ∧ (collectionName ≠ "" → 0 < limit → ¬queryVector.isFalsy →
      (queryVector.embeddings = none ∨ queryVector.embeddings = some []) →
      searchDocs env collectionName queryVector limit hybrid filter
        = (.error (.runtimeError "Failed to search documents"), []))
    ∧ (∀ denseEmbedding restEmbeddings e,
      collectionName ≠ "" → 0 < limit →
      queryVector.embeddings = some (denseEmbedding :: restEmbeddings) →
      hybrid = false →
      env.queryPoints (.dense denseEmbedding (filteringOf filter) limit) = .error e →
      (searchDocs env collectionName queryVector limit hybrid filter).1
        = .error (searchWrapErr e))
    ∧ (∀ denseEmbedding restEmbeddings,
      collectionName ≠ "" → 0 < limit →
      queryVector.embeddings = some (denseEmbedding :: restEmbeddings) →
      hybrid = true →
      (queryVector.sparseEmbeddings = none ∨ queryVector.sparseEmbeddings = some []) →
      searchDocs env collectionName queryVector limit hybrid filter
        = (.error (.runtimeError "Failed to search documents"), []))
    ∧ (∀ denseEmbedding restEmbeddings sp restSparse idx vals e,
      collectionName ≠ "" → 0 < limit →
      queryVector.embeddings = some (denseEmbedding :: restEmbeddings) →
      hybrid = true →
      queryVector.sparseEmbeddings = some (sp :: restSparse) →
      sp.indices = some idx → sp.values = some vals →
      env.queryPoints (.rrfFusion ⟨idx, vals⟩ denseEmbedding (filteringOf filter) limit)
        = .error e →
      (searchDocs env collectionName queryVector limit hybrid filter).1
        = .error (searchWrapErr (hybridWrapErr e))) := by
  refine ⟨fun h => ?_, fun hc hl => ?_, fun hc hl hf => ?_, fun hc hl hf hemb => ?_,
    fun d rest e hc hl he hh henv => ?_,
    fun d rest hc hl he hh hsp => ?_,
    fun d rest sp restSparse idx vals e hc hl he hh hsp hidx hvals henv => ?_⟩
  · simp [searchDocs, h]
  · simp [searchDocs, hc, hl]
  · have hl' : (limit ≤ 0) = False := by simp [hl, not_le]
    simp [searchDocs, hc, hl', hf]
  · have hl' : (limit ≤ 0) = False := by simp [hl, not_le]
    have hf' : queryVector.isFalsy = false := by simpa using hf
    rcases hemb with h1 | h1 <;>
      simp [searchDocs, hc, hl', hf', computeFiltering_ok, h1, searchWrapErr]
  · have hl' : (limit ≤ 0) = False := by simp [hl, not_le]
    have hf' : queryVector.isFalsy = false := by
      simp [QueryVec.isFalsy, he]
    subst hh
    simp [searchDocs, hc, hl', hf', computeFiltering_ok, he, henv]
  · have hl' : (limit ≤ 0) = False := by simp [hl, not_le]
    have hf' : queryVector.isFalsy = false := by
      simp [QueryVec.isFalsy, he]
    subst hh
    rcases hsp with h1 | h1 <;>
      simp [searchDocs, hc, hl', hf', computeFiltering_ok, he, h1, searchWrapErr]
  · have hl' : (limit ≤ 0) = False := by simp [hl, not_le]
    have hf' : queryVector.isFalsy = false := by
      simp [QueryVec.isFalsy, he]
    have hplan : hybridSearchPlan sp d (filteringOf filter) limit
        = .ok (.rrfFusion ⟨idx, vals⟩ d (filteringOf filter) limit) := by
      simp [hybridSearchPlan, hidx, hvals]
    subst hh
    simp [searchDocs, hc, hl', hf', computeFiltering_ok, he, hsp, hplan, henv]

/-- Closed witness for `searchDocs_validation_and_store_propagation`,
exercising the empty-collection-name, non-positive-limit, empty-dict and
store-failure branches at concrete inputs. -/
theorem searchDocs_validation_and_store_propagation_witness :
    searchDocs ⟨fun _ => .ok []⟩ "" ⟨some [[1]], none⟩ 5 false none
      = (.error (.valueError "collection_name must be a non-empty string"), [])
    ∧ searchDocs ⟨fun _ => .ok []⟩ "papers" ⟨some [[1]], none⟩ 0 false none
      = (.error (.valueError "limit must be a positive integer"), [])
    ∧ searchDocs ⟨fun _ => .ok []⟩ "papers" ⟨none, none⟩ 5 false none
      = (.error (.valueError "query_vector must be a non-empty dict"), [])
    ∧ (searchDocs ⟨fun _ => .error .unexpectedResponse⟩ "papers" ⟨some [[1]], none⟩
        5 false none).1 = .error .unexpectedResponse
    ∧ searchDocs ⟨fun _ => .ok []⟩ "papers" ⟨some [[1]], some []⟩ 5 true none
        = (.error (.runtimeError "Failed to search documents"), [])
    ∧ (searchDocs ⟨fun _ => .error .unexpectedResponse⟩ "papers"
        ⟨some [[1]], some [⟨some [0], some [1]⟩]⟩ 5 true none).1
        = .error .unexpectedResponse := by
  refine ⟨?_, ?_, ?_, ?_, ?_, ?_⟩
  · exact (searchDocs_validation_and_store_propagation ⟨fun _ => .ok []⟩ ""
      ⟨some [[1]], none⟩ 5 false none).1 rfl
  · exact (searchDocs_validation_and_store_propagation ⟨fun _ => .ok []⟩ "papers"
      ⟨some [[1]], none⟩ 0 false none).2.1 (by decide) (by decide)
  · exact (searchDocs_validation_and_store_propagation ⟨fun _ => .ok []⟩ "papers"
      ⟨none, none⟩ 5 false none).2.2.1 (by decide) (by decide) (by decide)
  · exact (searchDocs_validation_and_store_propagation
      ⟨fun _ => .error .unexpectedResponse⟩ "papers" ⟨some [[1]], none⟩ 5 false
      none).2.2.2.2.1 [1] [] .unexpectedResponse (by decide) (by decide) rfl rfl rfl
  · exact (searchDocs_validation_and_store_propagation ⟨fun _ => .ok []⟩ "papers"
      ⟨some [[1]], some []⟩ 5 true none).2.2.2.2.2.1 [1] [] (by decide) (by decide)
      rfl rfl (Or.inr rfl)
  · exact (searchDocs_validation_and_store_propagation
      ⟨fun _ => .error .unexpectedResponse⟩ "papers"
      ⟨some [[1]], some [⟨some [0], some [1]⟩]⟩ 5 true none).2.2.2.2.2.2 [1] []
      ⟨some [0], some [1]⟩ [] [0] [1] .unexpectedResponse (by decide) (by decide)
      rfl rfl rfl rfl rfl rfl

/-- C8 (counterexample): a non-empty `query_vector` dict whose `"embeddings"`
entry is empty is invalid, yet `search_docs` raises `RuntimeError` (the
catch-all wraps the internal `ValueError`), not `ValueError` as the claim
states — though still before any store I/O (the issued-query log is empty). -/
theorem searchDocs_invalid_embeddings_runtimeError :
    searchDocs ⟨fun _ => .ok []⟩ "papers" ⟨some [], none⟩ 5 false none
      = (.error (.runtimeError "Failed to search documents"), []) := rfl

/-- The documents shipped in the upsert calls of an effect log, in order. -/
def upsertedDocs (log : List IndexEffect) : List DocPoint :=
  (log.map fun e =>
    match e with
    | .upsert _ batch => batch
    | _ => []).flatten

theorem upsertedDocs_cons (e : IndexEffect) (log : List IndexEffect) :
    upsertedDocs (e :: log)
      = (match e with | .upsert _ batch => batch | _ => []) ++ upsertedDocs log := by
  simp [upsertedDocs]

/-- The embedding loop performs no upsert call. -/
theorem embedLoop_no_upsert (env : IndexEnv) (bs : List (List String)) :
    upsertedDocs (embedLoop env bs).2 = [] := by
  induction bs with
  | nil => rfl
  | cons b rest ih =>
    rcases hrest : embedLoop env rest with ⟨r, lg⟩
    rw [hrest] at ih
    cases hd : env.genDense b with
    | error e => simp [embedLoop, hd, upsertedDocs]
    | ok bd =>
      cases hs : env.genSparse b with
      | error e => simp [embedLoop, hd, hs, upsertedDocs]
      | ok bsp =>
        simp only [embedLoop, hd, hs, hrest]
        simpa [upsertedDocs_cons] using ih

/-- Splitting into batches of `n ≠ 0` and flattening is the identity. -/
theorem batchesOfAux_flatten {α : Type} (n : Nat) (hn : n ≠ 0) :
    ∀ (fuel : Nat) (l : List α), l.length ≤ fuel → (batchesOfAux fuel n l).flatten = l := by
  intro fuel
  induction fuel with
  | zero =>
    intro l hl
    have : l = [] := List.eq_nil_of_length_eq_zero (Nat.le_zero.mp hl)
    subst this
    rfl
  | succ f ih =>
    intro l hl
    match l with
    | [] => rfl
    | a :: t =>
      have hdl : ((a :: t).drop n).length ≤ f := by
        rw [List.length_drop]
        have hn1 : 1 ≤ n := Nat.one_le_iff_ne_zero.mpr hn
        simp only [List.length_cons] at hl ⊢
        omega
      show ((a :: t).take n :: batchesOfAux f n ((a :: t).drop n)).flatten = a :: t
      rw [List.flatten_cons, ih ((a :: t).drop n) hdl, List.take_append_drop]

/-- `batchesOf` with a nonzero batch size flattens back to the input. -/
theorem batchesOf_flatten {α : Type} (n : Nat) (hn : n ≠ 0) (l : List α) :
    (batchesOf n l).flatten = l :=
  batchesOfAux_flatten n hn l.length l (Nat.le_refl _)

/-- Whatever the upsert loop manages to ship is an in-order prefix of the
batched points; a fully successful loop ships all of them. -/
theorem upsertLoop_docs (env : IndexEnv) (coll : String) (bs : List (List DocPoint)) :
    (∃ k, upsertedDocs (upsertLoop env coll bs).2 = bs.flatten.take k)
    ∧ ((upsertLoop env coll bs).1 = .ok () →
        upsertedDocs (upsertLoop env coll bs).2 = bs.flatten) := by
  induction bs with
  | nil => exact ⟨⟨0, rfl⟩, fun _ => rfl⟩
  | cons b rest ih =>
    cases hb : env.addBatch coll b with
    | error e =>
      refine ⟨⟨b.length, ?_⟩, fun h => ?_⟩
      · simp [upsertLoop, hb, upsertedDocs_cons, upsertedDocs, List.take_left]
      · simp [upsertLoop, hb] at h
    | ok u =>
      rcases hrest : upsertLoop env coll rest with ⟨r, lg⟩
      rw [hrest] at ih
      obtain ⟨⟨k, hk⟩, hok⟩ := ih
      refine ⟨⟨b.length + k, ?_⟩, fun h => ?_⟩
      · simp only [upsertLoop, hb, hrest, upsertedDocs_cons, List.flatten_cons]
        rw [hk, List.take_append]
      · simp only [upsertLoop, hb, hrest] at h ⊢
        simp only [upsertedDocs_cons, List.flatten_cons]
        rw [hok h]

/-- With matching lengths, `buildPoints` yields one point per chunk. -/
theorem buildPoints_length (u : Nat → String) (paperData : PaperData)
    (chunks : List Chunk) (dense : List DenseVec) (sparse : List SparseVec)
    (h1 : dense.length = chunks.length) (h2 : sparse.length = chunks.length) :
    (buildPoints u paperData chunks dense sparse).length = chunks.length := by
  simp [buildPoints, List.length_zip, h1, h2]

/-- `buildPoints` pairs the k-th chunk with the k-th dense and the k-th sparse
embedding, under the k-th uuid draw. -/
theorem buildPoints_getElem (u : Nat → String) (paperData : PaperData)
    (chunks : List Chunk) (dense : List DenseVec) (sparse : List SparseVec)
    (k : Nat) (c : Chunk) (d : DenseVec) (s : SparseVec)
    (hc : chunks[k]? = some c) (hd : dense[k]? = some d) (hs : sparse[k]? = some s) :
    (buildPoints u paperData chunks dense sparse)[k]?
      = some ⟨u k, buildChunkPayload paperData c, d, s⟩ := by
  have hz : (chunks.zip (dense.zip sparse))[k]? = some (c, d, s) := by
    rw [List.getElem?_zip_eq_some]
    exact ⟨hc, by rw [List.getElem?_zip_eq_some]; exact ⟨hd, hs⟩⟩
  simp [buildPoints, List.getElem?_map, List.getElem?_enum, hz]

theorem upsertedDocs_append (l1 l2 : List IndexEffect) :
    upsertedDocs (l1 ++ l2) = upsertedDocs l1 ++ upsertedDocs l2 := by
  simp [upsertedDocs]

/-- Reduction of `index_paper` to its post-embedding stage, under pinned
collaborator outcomes. -/
theorem indexPaper_reduces (env : IndexEnv) (batchSize : Nat) (paperData : PaperData)
    (collectionName : String) (aid : String) (chunks : List Chunk)
    (dense : List DenseVec) (sparse : List SparseVec) (embLog : List IndexEffect)
    (hAid : paperData.arxivId = some aid) (hne : aid ≠ "")
    (hEx : env.contentExists collectionName aid = .ok false)
    (hChunks : env.chunkPaper (paperData.title.getD "") (paperData.abstract.getD "")
        (fullTextOf paperData) aid (paperData.id.getD "") paperData.sections = .ok chunks)
    (hCne : chunks ≠ [])
    (hB : batchSize ≠ 0)
    (hEmb : embedLoop env (batchesOf batchSize (chunks.map (·.text)))
        = (.ok (dense, sparse), embLog)) :
    indexPaper env batchSize paperData collectionName
      = indexAfterEmbed env batchSize paperData collectionName chunks dense sparse embLog := by
  have hf : optStrFalsy paperData.arxivId = false := by simp [optStrFalsy, hAid, hne]
  have hg : paperData.arxivId.getD "" = aid := by simp [hAid]
  obtain ⟨c0, cs, rfl⟩ : ∃ c0 cs, chunks = c0 :: cs := by
    cases chunks with
    | nil => exact absurd rfl hCne
    | cons c0 cs => exact ⟨c0, cs, rfl⟩
  have hB' : (batchSize = 0) = False := by simp [hB]
  simp only [indexPaper, hf, Bool.false_eq_true, if_false, hg, hEx, indexTryBlock,
    hChunks, indexAfterChunks, hB', hEmb]

/-- C1: for every paper and chunk batch, indexing pairs chunk `i` with dense
embedding `i` and sparse embedding `i` positionally; if
`len(dense_embeddings) ≠ len(chunks)` or `len(sparse_embeddings) ≠
len(chunks)`, `index_paper` returns `chunks_indexed = 0` with `errors = 1`
and upserts no point for that paper; and whatever is upserted on the
matching-lengths path is an in-order prefix of the positionally paired
points — never a mismatched pairing. -/
theorem indexPaper_pairing_and_mismatch_abort (env : IndexEnv) (batchSize : Nat)
    (paperData : PaperData) (collectionName : String) (aid : String)
    (chunks : List Chunk) (dense : List DenseVec) (sparse : List SparseVec)
    (embLog : List IndexEffect)
    (hAid : paperData.arxivId = some aid) (hne : aid ≠ "")
    (hEx : env.contentExists collectionName aid = .ok false)
    (hChunks : env.chunkPaper (paperData.title.getD "") (paperData.abstract.getD "")
        (fullTextOf paperData) aid (paperData.id.getD "") paperData.sections = .ok chunks)
    (hCne : chunks ≠ [])
    (hB : batchSize ≠ 0)
    (hEmb : embedLoop env (batchesOf batchSize (chunks.map (·.text)))
        = (.ok (dense, sparse), embLog)) :
    ((dense.length ≠ chunks.length ∨ sparse.length ≠ chunks.length) →
      indexPaper env batchSize paperData collectionName
        = (.ok ⟨chunks.length, 0, dense.length, none, 1⟩, .chunk :: embLog)
      ∧ upsertedDocs (indexPaper env batchSize paperData collectionName).2 = [])
    ∧ (dense.length = chunks.length → sparse.length = chunks.length →
      (buildPoints env.uuidGen paperData chunks dense sparse).length = chunks.length
      ∧ (∀ (k : Nat) (c : Chunk) (d : DenseVec) (s : SparseVec),
          chunks[k]? = some c → dense[k]? = some d → sparse[k]? = some s →
          (buildPoints env.uuidGen paperData chunks dense sparse)[k]?
            = some (⟨env.uuidGen k, buildChunkPayload paperData c, d, s⟩ : DocPoint))
      ∧ ∃ m, upsertedDocs (indexPaper env batchSize paperData collectionName).2
            = (buildPoints env.uuidGen paperData chunks dense sparse).take m) := by
  have hred := indexPaper_reduces env batchSize paperData collectionName aid chunks
    dense sparse embLog hAid hne hEx hChunks hCne hB hEmb
  have hEmbEmpty : upsertedDocs embLog = [] := by
    have h0 := embedLoop_no_upsert env (batchesOf batchSize (chunks.map (·.text)))
    rw [hEmb] at h0
    exact h0
  constructor
  · intro hmis
    by_cases hdl : dense.length = chunks.length
    · have hsl : sparse.length ≠ chunks.length := by
        rcases hmis with h | h
        · exact absurd hdl h
        · exact h
      have : indexPaper env batchSize paperData collectionName
          = (.ok ⟨chunks.length, 0, dense.length, none, 1⟩, .chunk :: embLog) := by
        rw [hred]
        simp [indexAfterEmbed, hdl, hsl]
      refine ⟨this, ?_⟩
      rw [this]
      simp [upsertedDocs_cons, hEmbEmpty]
    · have : indexPaper env batchSize paperData collectionName
          = (.ok ⟨chunks.length, 0, dense.length, none, 1⟩, .chunk :: embLog) := by
        rw [hred]
        simp [indexAfterEmbed, hdl]
      refine ⟨this, ?_⟩
      rw [this]
      simp [upsertedDocs_cons, hEmbEmpty]
  · intro h1 h2
    refine ⟨buildPoints_length env.uuidGen paperData chunks dense sparse h1 h2,
      fun k c d s hc hd hs =>
        buildPoints_getElem env.uuidGen paperData chunks dense sparse k c d s hc hd hs,
      ?_⟩
    rcases hup : upsertLoop env collectionName
        (batchesOf batchSize (buildPoints env.uuidGen paperData chunks dense sparse))
      with ⟨upRes, upLog⟩
    obtain ⟨⟨m, hm⟩, -⟩ := upsertLoop_docs env collectionName
      (batchesOf batchSize (buildPoints env.uuidGen paperData chunks dense sparse))
    rw [hup] at hm
    rw [batchesOf_flatten batchSize hB] at hm
    refine ⟨m, ?_⟩
    rw [hred]
    have hlog : (indexAfterEmbed env batchSize paperData collectionName chunks
        dense sparse embLog).2 = .chunk :: embLog ++ upLog := by
      simp only [indexAfterEmbed, h1, h2, ne_eq, not_true_eq_false, if_false, hup]
      cases upRes <;> rfl
    rw [hlog]
    simp [upsertedDocs_cons, upsertedDocs_append, hEmbEmpty, hm]

/-- A concrete chunk for closed instantiations. -/
def chunkW : Chunk := ⟨"2401.00001", "p1", "some text", ⟨0, 2, 0, 9, "Intro"⟩⟩

/-- A concrete paper for closed instantiations. -/
def paperW : PaperData :=
  ⟨some "p1", some "2401.00001", some "T", some "A", some "some text", none,
   none, none, none, none⟩

/-- A concrete environment whose dense client returns no vectors for a
one-chunk paper (an embedding count mismatch). -/
def envMismatch : IndexEnv :=
  ⟨.ok ["papers"], fun _ => .ok (), fun _ _ => .ok false,
   fun _ _ _ _ _ _ => .ok [chunkW], fun _ => .ok [], fun _ => .ok [⟨[0], [1]⟩],
   fun _ _ => .ok (), fun _ => "u0"⟩

/-- Closed witness for `indexPaper_pairing_and_mismatch_abort`: a one-chunk
paper whose dense batch comes back empty is aborted with `chunks_indexed = 0`,
`errors = 1` and no upsert call. -/
theorem indexPaper_pairing_and_mismatch_abort_witness :
    indexPaper envMismatch 10 paperW "papers"
      = (.ok ⟨1, 0, 0, none, 1⟩,
         [.chunk, .embedDense ["some text"], .embedSparse ["some text"]])
    ∧ upsertedDocs (indexPaper envMismatch 10 paperW "papers").2 = [] :=
  (indexPaper_pairing_and_mismatch_abort envMismatch 10 paperW "papers"
    "2401.00001" [chunkW] [] [⟨[0], [1]⟩]
    [.embedDense ["some text"], .embedSparse ["some text"]]
    rfl (by decide) rfl rfl (by decide) (by decide) rfl).1 (Or.inl (by decide))

theorem indexAfterEmbed_isOk (env : IndexEnv) (batchSize : Nat) (paperData : PaperData)
    (collectionName : String) (chunks : List Chunk) (d : List DenseVec)
    (s : List SparseVec) (lg : List IndexEffect) :
    ∃ st, (indexAfterEmbed env batchSize paperData collectionName chunks d s lg).1
      = .ok st := by
  by_cases h1 : d.length ≠ chunks.length
  · exact ⟨⟨chunks.length, 0, d.length, none, 1⟩, by simp [indexAfterEmbed, h1]⟩
  · by_cases h2 : s.length ≠ chunks.length
    · exact ⟨⟨chunks.length, 0, d.length, none, 1⟩, by simp [indexAfterEmbed, h1, h2]⟩
    · rcases hup : upsertLoop env collectionName
          (batchesOf batchSize (buildPoints env.uuidGen paperData chunks d s))
        with ⟨r, lg2⟩
      cases r with
      | error e => exact ⟨zeroStats 1, by simp [indexAfterEmbed, h1, h2, hup]⟩
      | ok u =>
        exact ⟨⟨chunks.length, chunks.length, d.length, some s.length, 0⟩,
          by simp [indexAfterEmbed, h1, h2, hup]⟩

theorem indexAfterChunks_isOk (env : IndexEnv) (batchSize : Nat) (paperData : PaperData)
    (collectionName : String) (chunks : List Chunk) :
    ∃ st, (indexAfterChunks env batchSize paperData collectionName chunks).1 = .ok st := by
  match chunks with
  | [] => exact ⟨zeroStats 0, rfl⟩
  | c :: cs =>
    by_cases hB : batchSize = 0
    · exact ⟨zeroStats 1, by simp [indexAfterChunks, hB]⟩
    · rcases hEmb : embedLoop env (batchesOf batchSize ((c :: cs).map (·.text)))
        with ⟨r, lg⟩
      cases r with
      | error e =>
        refine ⟨zeroStats 1, ?_⟩
        simp only [indexAfterChunks, hB, if_false]
        rw [hEmb]
      | ok ds =>
        obtain ⟨st, hst⟩ := indexAfterEmbed_isOk env batchSize paperData collectionName
          (c :: cs) ds.1 ds.2 lg
        refine ⟨st, ?_⟩
        simp only [indexAfterChunks, hB, if_false]
        rw [hEmb]
        exact hst

theorem indexTryBlock_isOk (env : IndexEnv) (batchSize : Nat) (paperData : PaperData)
    (collectionName : String) (arxivId : String) :
    ∃ st, (indexTryBlock env batchSize paperData collectionName arxivId).1 = .ok st := by
  cases hc : env.chunkPaper (paperData.title.getD "") (paperData.abstract.getD "")
      (fullTextOf paperData) arxivId (paperData.id.getD "") paperData.sections with
  | error e => exact ⟨zeroStats 1, by simp [indexTryBlock, hc]⟩
  | ok chunks =>
    obtain ⟨st, hst⟩ := indexAfterChunks_isOk env batchSize paperData collectionName chunks
    exact ⟨st, by simpa [indexTryBlock, hc] using hst⟩

/-- C10 (amended): `index_paper` is total at its public interface except for
the duplicate-existence check: a paper missing `arxiv_id` returns
`errors = 1`; any error escaping the method is exactly an error of
`content_exists` (line 68, outside every `try`); whenever the existence check
answers, the method returns a statistics dict; and a failure during chunking,
embedding, or upserting is caught and reported as a statistics dict with
`errors = 1`. -/
theorem indexPaper_total_except_existence_check (env : IndexEnv) (batchSize : Nat)
    (paperData : PaperData) (collectionName : String) :
    (optStrFalsy paperData.arxivId = true →
      indexPaper env batchSize paperData collectionName = (.ok ⟨0, 0, 0, none, 1⟩, []))
    ∧ (∀ e, (indexPaper env batchSize paperData collectionName).1 = .error e →
        env.contentExists collectionName (paperData.arxivId.getD "") = .error e)
    ∧ (∀ b, env.contentExists collectionName (paperData.arxivId.getD "") = .ok b →
        ∃ st, (indexPaper env batchSize paperData collectionName).1 = .ok st)
    ∧ (∀ e', optStrFalsy paperData.arxivId = false →
        env.contentExists collectionName (paperData.arxivId.getD "") = .ok false →
        env.chunkPaper (paperData.title.getD "") (paperData.abstract.getD "")
          (fullTextOf paperData) (paperData.arxivId.getD "") (paperData.id.getD "")
          paperData.sections = .error e' →
        indexPaper env batchSize paperData collectionName
          = (.ok (zeroStats 1), [.chunk]))
    ∧ (∀ e' (chunks : List Chunk) (lg : List IndexEffect),
        optStrFalsy paperData.arxivId = false →
        env.contentExists collectionName (paperData.arxivId.getD "") = .ok false →
        env.chunkPaper (paperData.title.getD "") (paperData.abstract.getD "")
          (fullTextOf paperData) (paperData.arxivId.getD "") (paperData.id.getD "")
          paperData.sections = .ok chunks →
        chunks ≠ [] → batchSize ≠ 0 →
        embedLoop env (batchesOf batchSize (chunks.map (·.text))) = (.error e', lg) →
        indexPaper env batchSize paperData collectionName
          = (.ok (zeroStats 1), .chunk :: lg))
    ∧ (∀ e' (chunks : List Chunk) (dense : List DenseVec) (sparse : List SparseVec)
        (embLg upLg : List IndexEffect),
        optStrFalsy paperData.arxivId = false →
        env.contentExists collectionName (paperData.arxivId.getD "") = .ok false →
        env.chunkPaper (paperData.title.getD "") (paperData.abstract.getD "")
          (fullTextOf paperData) (paperData.arxivId.getD "") (paperData.id.getD "")
          paperData.sections = .ok chunks →
        chunks ≠ [] → batchSize ≠ 0 →
        embedLoop env (batchesOf batchSize (chunks.map (·.text)))
          = (.ok (dense, sparse), embLg) →
        dense.length = chunks.length → sparse.length = chunks.length →
        upsertLoop env collectionName
            (batchesOf batchSize (buildPoints env.uuidGen paperData chunks dense sparse))
          = (.error e', upLg) →
        indexPaper env batchSize paperData collectionName
          = (.ok (zeroStats 1), .chunk :: embLg ++ upLg)) := by
  have hAidOf : optStrFalsy paperData.arxivId = false →
      ∃ aid, paperData.arxivId = some aid ∧ aid ≠ "" := by
    intro hf
    cases ha : paperData.arxivId with
    | none => rw [ha] at hf; simp [optStrFalsy] at hf
    | some s =>
      refine ⟨s, rfl, ?_⟩
      rw [ha] at hf
      simp [optStrFalsy] at hf
      exact hf
  refine ⟨fun h => ?_, fun e h => ?_, fun b hb => ?_, fun e' hf hex hch => ?_,
    fun e' chunks lg hf hex hch hCne hB hEmb => ?_,
    fun e' chunks dense sparse embLg upLg hf hex hch hCne hB hEmb h1 h2 hup => ?_⟩
  · simp [indexPaper, h, zeroStats]
  · by_cases hf : optStrFalsy paperData.arxivId
    · simp [indexPaper, hf] at h
    · cases hex : env.contentExists collectionName (paperData.arxivId.getD "") with
      | error e0 =>
        simp only [indexPaper, hf, Bool.false_eq_true, if_false, hex] at h
        injection h with h1
        rw [h1]
      | ok b =>
        exfalso
        cases b with
        | true => simp [indexPaper, hf, hex] at h
        | false =>
          obtain ⟨st, hst⟩ := indexTryBlock_isOk env batchSize paperData collectionName
            (paperData.arxivId.getD "")
          simp [indexPaper, hf, hex, hst] at h
  · by_cases hf : optStrFalsy paperData.arxivId
    · exact ⟨zeroStats 1, by simp [indexPaper, hf]⟩
    · cases b with
      | true => exact ⟨zeroStats 0, by simp [indexPaper, hf, hb]⟩
      | false =>
        obtain ⟨st, hst⟩ := indexTryBlock_isOk env batchSize paperData collectionName
          (paperData.arxivId.getD "")
        exact ⟨st, by simpa [indexPaper, hf, hb] using hst⟩
  · simp [indexPaper, hf, hex, indexTryBlock, hch]
  · obtain ⟨c0, cs, rfl⟩ : ∃ c0 cs, chunks = c0 :: cs := by
      cases chunks with
      | nil => exact absurd rfl hCne
      | cons c0 cs => exact ⟨c0, cs, rfl⟩
    have hB' : (batchSize = 0) = False := by simp [hB]
    simp only [indexPaper, hf, Bool.false_eq_true, if_false, hex, indexTryBlock,
      hch, indexAfterChunks, hB', hEmb]
  · obtain ⟨aid, hAid, hne⟩ := hAidOf hf
    have hg : paperData.arxivId.getD "" = aid := by simp [hAid]
    rw [hg] at hex hch
    rw [indexPaper_reduces env batchSize paperData collectionName aid chunks dense
      sparse embLg hAid hne hex hch hCne hB hEmb]
    simp [indexAfterEmbed, h1, h2, hup]

/-- A concrete environment whose existence check raises a store error. -/
def envRaises : IndexEnv :=
  ⟨.ok ["papers"], fun _ => .ok (),
   fun _ _ => .error (.exn "qdrant connection refused"),
   fun _ _ _ _ _ _ => .ok [chunkW], fun _ => .ok [[1]], fun _ => .ok [⟨[0], [1]⟩],
   fun _ _ => .ok (), fun _ => "u0"⟩

/-- C10 (counterexample): `index_paper` is not total — when the existence
check (`content_exists`, line 68, outside every `try` block) raises, the
exception escapes `index_paper` instead of being returned as an `errors = 1`
statistics dict. -/
theorem indexPaper_raises_when_existence_check_raises :
    indexPaper envRaises 10 paperW "papers"
      = (.error (.exn "qdrant connection refused"), []) := rfl

/-- A concrete environment whose dense-embedding client raises. -/
def envEmbedFail : IndexEnv :=
  ⟨.ok ["papers"], fun _ => .ok (), fun _ _ => .ok false,
   fun _ _ _ _ _ _ => .ok [chunkW],
   fun _ => .error (.exn "embed backend down"), fun _ => .ok [⟨[0], [1]⟩],
   fun _ _ => .ok (), fun _ => "u0"⟩

/-- A concrete environment whose batch-upsert call raises. -/
def envUpsertFail : IndexEnv :=
  ⟨.ok ["papers"], fun _ => .ok (), fun _ _ => .ok false,
   fun _ _ _ _ _ _ => .ok [chunkW], fun _ => .ok [[1]], fun _ => .ok [⟨[0], [1]⟩],
   fun _ _ => .error (.exn "qdrant write failed"), fun _ => "u0"⟩

/-- Closed witness for `indexPaper_total_except_existence_check`: a paper
without `arxiv_id` yields `errors = 1`; with the store answering the
existence check, `index_paper` returns a statistics dict; and an
embedding-client failure as well as an upsert failure are each caught and
reported as `errors = 1`. -/
theorem indexPaper_total_except_existence_check_witness :
    indexPaper envMismatch 10
      ⟨some "p1", none, some "T", some "A", some "body", none, none, none, none, none⟩
      "papers" = (.ok ⟨0, 0, 0, none, 1⟩, [])
    ∧ (∃ st, (indexPaper envMismatch 10 paperW "papers").1 = .ok st)
    ∧ indexPaper envEmbedFail 10 paperW "papers"
        = (.ok (zeroStats 1), [.chunk, .embedDense ["some text"]])
    ∧ indexPaper envUpsertFail 10 paperW "papers"
        = (.ok (zeroStats 1),
           [.chunk, .embedDense ["some text"], .embedSparse ["some text"],
            .upsert "papers" [⟨"u0", buildChunkPayload paperW chunkW, [1], ⟨[0], [1]⟩⟩]]) := by
  refine ⟨?_, ?_, ?_, ?_⟩
  · exact (indexPaper_total_except_existence_check envMismatch 10
      ⟨some "p1", none, some "T", some "A", some "body", none, none, none, none, none⟩
      "papers").1 rfl
  · exact (indexPaper_total_except_existence_check envMismatch 10 paperW
      "papers").2.2.1 false rfl
  · exact (indexPaper_total_except_existence_check envEmbedFail 10 paperW
      "papers").2.2.2.2.1 (.exn "embed backend down") [chunkW]
      [.embedDense ["some text"]] (by decide) rfl rfl (by decide) (by decide) rfl
  · exact (indexPaper_total_except_existence_check envUpsertFail 10 paperW
      "papers").2.2.2.2.2 (.exn "qdrant write failed") [chunkW] [[1]] [⟨[0], [1]⟩]
      [.embedDense ["some text"], .embedSparse ["some text"]]
      [.upsert "papers" [⟨"u0", buildChunkPayload paperW chunkW, [1], ⟨[0], [1]⟩⟩]]
      (by decide) rfl rfl (by decide) (by decide) rfl (by decide) (by decide) rfl

/-- After an upsert, `find?` by the point's id sees exactly that point. -/
theorem upsertPoint_find (store : List (Nat × QdrantPoint)) (p : QdrantPoint) :
    (upsertPoint store p).find? (fun e => e.1 = p.id) = some (p.id, p) := by
  induction store with
  | nil => simp [upsertPoint, List.find?]
  | cons a l ih =>
    by_cases ha : a.1 = p.id
    · simp [upsertPoint, ha, List.find?]
    · cases hl : l.any (fun e => decide (e.1 = p.id)) with
      | true =>
        have hstep : upsertPoint (a :: l) p
            = a :: (l.map fun e => if e.1 = p.id then (p.id, p) else e) := by
          simp [upsertPoint, List.any_cons, hl, if_neg ha]
        rw [hstep, List.find?_cons_of_neg _ (by simpa using ha)]
        have hl2 : upsertPoint l p = l.map fun e => if e.1 = p.id then (p.id, p) else e := by
          simp [upsertPoint, hl]
        rw [hl2] at ih
        exact ih
      | false =>
        have hstep : upsertPoint (a :: l) p = a :: (l ++ [(p.id, p)]) := by
          simp [upsertPoint, List.any_cons, hl, if_neg ha]
        rw [hstep, List.find?_cons_of_neg _ (by simpa using ha)]
        have hl2 : upsertPoint l p = l ++ [(p.id, p)] := by
          simp [upsertPoint, hl]
        rw [hl2] at ih
        exact ih

/-- Replacing every entry under an id by one point keeps the count of
entries under that id. -/
theorem countP_map_replace (l : List (Nat × QdrantPoint)) (p : QdrantPoint) :
    ((l.map fun e => if e.1 = p.id then (p.id, p) else e).countP fun e => e.1 = p.id)
      = l.countP fun e => e.1 = p.id := by
  induction l with
  | nil => rfl
  | cons a t ih =>
    simp only [List.map_cons, List.countP_cons, ih]
    by_cases ha : a.1 = p.id
    · simp [ha]
    · simp [ha]

/-- An upsert into a store holding at most one point under the id leaves
exactly one point under the id. -/
theorem upsertPoint_countP (store : List (Nat × QdrantPoint)) (p : QdrantPoint)
    (h : store.countP (fun e => e.1 = p.id) ≤ 1) :
    (upsertPoint store p).countP (fun e => e.1 = p.id) = 1 := by
  cases hany : store.any (fun e => decide (e.1 = p.id)) with
  | false =>
    have hzero : store.countP (fun e => decide (e.1 = p.id)) = 0 := by
      rw [List.countP_eq_zero]
      intro a ha
      have := List.any_eq_false.mp hany a ha
      simpa using this
    have hstep : upsertPoint store p = store ++ [(p.id, p)] := by
      simp [upsertPoint, hany]
    rw [hstep, List.countP_append, hzero]
    simp [List.countP_cons]
  | true =>
    have hstep : upsertPoint store p
        = store.map fun e => if e.1 = p.id then (p.id, p) else e := by
      simp [upsertPoint, hany]
    have hpos : 0 < store.countP (fun e => e.1 = p.id) := by
      obtain ⟨a, ha, hpa⟩ := List.any_eq_true.mp hany
      exact List.countP_pos_iff.mpr ⟨a, ha, hpa⟩
    rw [hstep, countP_map_replace]
    omega

/-- C2 (amended): the numeric point id `add_batch_docs` assigns is the
deterministic CRC32-based hash of the document's *id string*
(`_string_to_positive_int`), and upserting two points carrying the same id
into a well-formed store leaves exactly one stored point under that id,
holding the later payload (idempotent overwrite).  Determinism holds in the
id string — not in the logical chunk key: `index_paper` draws a fresh
`uuid4()` per chunk as that string (see the counterexample), so duplicate
prevention across re-indexing rests on the existence check instead. -/
theorem pointId_deterministic_upsert_overwrites
    (collectionName : String) (docs : List DocPoint) (hybrid : Bool)
    (pts : List QdrantPoint) (store : List (Nat × QdrantPoint))
    (p1 p2 : QdrantPoint) :
    (addBatchDocs collectionName docs hybrid = .ok pts →
      pts.map (·.id) = docs.map (fun d => stringToPositiveInt d.id))
    ∧ (p1.id = p2.id → store.countP (fun e => e.1 = p2.id) ≤ 1 →
      (upsertBatch store [p1, p2]).countP (fun e => e.1 = p2.id) = 1
      ∧ (upsertBatch store [p1, p2]).find? (fun e => e.1 = p2.id) = some (p2.id, p2)) := by
  constructor
  · intro h
    by_cases hc : collectionName = ""
    · simp [addBatchDocs, hc] at h
    · by_cases hd : docs = []
      · simp [addBatchDocs, hc, hd] at h
      · by_cases hid : docs.any (fun d => d.id = "")
        · simp [addBatchDocs, hc, hd, hid] at h
        · by_cases hde : docs.any (fun d => d.denseEmbedding = [])
          · simp [addBatchDocs, hc, hd, hid, hde] at h
          · have hbody : addBatchDocs collectionName docs hybrid
                = .ok (docs.map (fun d => ⟨stringToPositiveInt d.id, d.denseEmbedding,
                    if hybrid then some d.sparseEmbedding else none, d.metadata⟩)) := by
              simp [addBatchDocs, hc, hd, hid, hde]
            rw [hbody] at h
            injection h with h2
            rw [← h2]
            simp [List.map_map, Function.comp]
  · intro hid hwf
    have hstep : upsertBatch store [p1, p2] = upsertPoint (upsertPoint store p1) p2 := rfl
    constructor
    · rw [hstep]
      apply upsertPoint_countP
      have h1 : (upsertPoint store p1).countP (fun e => e.1 = p1.id) = 1 := by
        apply upsertPoint_countP
        rw [hid]
        exact hwf
      rw [hid] at h1
      omega
    · rw [hstep]
      exact upsertPoint_find (upsertPoint store p1) p2

/-- Closed witness for `pointId_deterministic_upsert_overwrites`: a two-doc
batch gets the CRC32 ids of its id strings, and a same-id double upsert into
the empty store keeps exactly the later point. -/
theorem pointId_deterministic_upsert_overwrites_witness :
    (∃ pts, addBatchDocs "papers"
        [⟨"aaaa", buildChunkPayload paperW chunkW, [1], ⟨[0], [1]⟩⟩] true = .ok pts
      ∧ pts.map (·.id) = [stringToPositiveInt "aaaa"])
    ∧ (upsertBatch []
        [⟨stringToPositiveInt "aaaa", [1], none, buildChunkPayload paperW chunkW⟩,
         ⟨stringToPositiveInt "aaaa", [2], none, buildChunkPayload paperW chunkW⟩]).countP
        (fun e => e.1 = stringToPositiveInt "aaaa") = 1 := by
  constructor
  · refine ⟨[⟨stringToPositiveInt "aaaa", [1], some ⟨[0], [1]⟩,
      buildChunkPayload paperW chunkW⟩], rfl, ?_⟩
    exact (pointId_deterministic_upsert_overwrites "papers"
      [⟨"aaaa", buildChunkPayload paperW chunkW, [1], ⟨[0], [1]⟩⟩] true
      [⟨stringToPositiveInt "aaaa", [1], some ⟨[0], [1]⟩,
        buildChunkPayload paperW chunkW⟩] []
      ⟨0, [], none, buildChunkPayload paperW chunkW⟩
      ⟨0, [], none, buildChunkPayload paperW chunkW⟩).1 rfl
  · exact ((pointId_deterministic_upsert_overwrites "papers" [] true [] []
      ⟨stringToPositiveInt "aaaa", [1], none, buildChunkPayload paperW chunkW⟩
      ⟨stringToPositiveInt "aaaa", [2], none, buildChunkPayload paperW chunkW⟩).2
      rfl (by simp)).1

/-- A successful one-chunk environment whose uuid stream draws `"aaaa"`. -/
def envUuidA : IndexEnv :=
  ⟨.ok ["papers"], fun _ => .ok (), fun _ _ => .ok false,
   fun _ _ _ _ _ _ => .ok [chunkW], fun _ => .ok [[1]], fun _ => .ok [⟨[0], [1]⟩],
   fun _ _ => .ok (), fun _ => "aaaa"⟩

/-- The same environment with uuid stream drawing `"bbbb"` — the only
difference from `envUuidA`. -/
def envUuidB : IndexEnv :=
  ⟨.ok ["papers"], fun _ => .ok (), fun _ _ => .ok false,
   fun _ _ _ _ _ _ => .ok [chunkW], fun _ => .ok [[1]], fun _ => .ok [⟨[0], [1]⟩],
   fun _ _ => .ok (), fun _ => "bbbb"⟩

/-- C2 (counterexample): the point id is *not* a deterministic function of the
stable document key.  Indexing the identical paper into the identical
collection twice — the two runs differing only in the `uuid4()` draw, which
`index_paper` uses as the point's id string (line 169) — upserts the same
logical chunk under two different numeric point ids, so re-indexing would
duplicate rather than overwrite. -/
theorem indexPaper_pointId_depends_on_uuid_draw :
    (indexPaper envUuidA 10 paperW "papers").1 = .ok ⟨1, 1, 1, some 1, 0⟩
    ∧ (indexPaper envUuidB 10 paperW "papers").1 = .ok ⟨1, 1, 1, some 1, 0⟩
    ∧ (upsertedDocs (indexPaper envUuidA 10 paperW "papers").2).map
        (fun d => stringToPositiveInt d.id) = [stringToPositiveInt "aaaa"]
    ∧ (upsertedDocs (indexPaper envUuidB 10 paperW "papers").2).map
        (fun d => stringToPositiveInt d.id) = [stringToPositiveInt "bbbb"]
    ∧ stringToPositiveInt "aaaa" ≠ stringToPositiveInt "bbbb" :=
  ⟨rfl, rfl, rfl, rfl, by decide⟩
